import Mathlib

/-!
Shallow embedding of `components/content/src/page.rs` (the `Page` content unit:
parsing, identity resolution, markdown rendering, asset discovery, view
projection).  External collaborators (front-matter splitter, slugifier, site
configuration, markdown renderer, filesystem) are not part of this repository's
source; they are modelled from the specification and marked as such.
-/

/-- Error taxonomy of the core (spec section 7). -/
inductive PError where
  | MalformedMetadata
  | ReadFailure
  | RenderFailure
  | TemplateFailure
deriving DecidableEq, Repr

deriving instance DecidableEq for Except

/-- Modelled from the spec: the declared front-matter fields ("optional title,
description, declared slug, declared path, declared template name, draft flag,
tags, category, arbitrary extra key/value map, free-form date").  The
`front_matter` crate is external to this repository. -/
structure PageFrontMatter where
  title : Option String := none
  description : Option String := none
  date : Option String := none
  slug : Option String := none
  path : Option String := none
  tags : Option (List String) := none
  draft : Option Bool := none
  category : Option String := none
  template : Option String := none
  extra : List (String × String) := []
deriving DecidableEq, Repr

/-- Modelled from the spec: structured file-location info ("absolute path, path
components relative to content root, file stem, parent directory").  The
`FileInfo` type and its constructor `FileInfo::new_page` are external to this
repository; `parentName` models `file.path.parent()` followed by `file_name()`
— `none` when the file sits at the content root (no parent directory). -/
structure FileInfo where
  name : String
  components : List String
  parentName : Option String
deriving DecidableEq, Repr

/-- Modelled from the spec: a heading entry of the table of contents
("level, text, generated anchor id").  The `Header` type lives in the external
`rendering` crate. -/
structure Header where
  level : Nat
  title : String
  id : String
deriving DecidableEq, Repr

/-- Anchor-insertion policy passed to the markdown renderer (spec section 6:
`anchorPolicy ∈ {None, Left, Right, Heading}`); the type lives in the external
`front_matter` crate. -/
inductive InsertAnchor where
  | anchorNone
  | left
  | right
  | heading
deriving DecidableEq, Repr

/-- Modelled from the spec: site configuration ("base address, highlighting
defaults, theme name, makePermalink"); the `config` crate is external to this
repository.  The source unwraps `highlight_code`/`highlight_theme`, so they are
modelled as already-validated plain fields. -/
structure Config where
  base_url : String
  highlight_code : Bool := false
  highlight_theme : String := ""
  theme : Option String := none
deriving DecidableEq, Repr

/-- Rust `str::trim` (whitespace trimmed from both ends; modelled over the
ASCII whitespace characters recognised by `Char.isWhitespace`). -/
def strTrim (s : String) : String :=
  ⟨((s.data.dropWhile Char.isWhitespace).reverse.dropWhile Char.isWhitespace).reverse⟩

/-- Leading whitespace trimmed (Rust `str::trim_left`). -/
def strTrimLeft (s : String) : String :=
  ⟨s.data.dropWhile Char.isWhitespace⟩

/-- Rust `str::starts_with('/')`. -/
def startsWithSlash (s : String) : Bool :=
  s.data.head? == some '/'

/-- Rust `str::ends_with('/')`: the last character is `'/'`. -/
def endsWithSlash (s : String) : Bool :=
  s.data.getLast? == some '/'

/-- Split at the first occurrence of the (non-empty) pattern `pat`:
`some (before, after)` when `pat` occurs, `none` otherwise. -/
def splitFirst (pat : List Char) : List Char → Option (List Char × List Char)
  | [] => none
  | c :: rest =>
      if List.isPrefixOf pat (c :: rest) then some ([], (c :: rest).drop pat.length)
      else
        match splitFirst pat rest with
        | none => none
        | some (before, after) => some (c :: before, after)

/-- Rust `str::contains(pat)` for a non-empty literal pattern. -/
def strContains (s pat : String) : Bool :=
  (splitFirst pat.data s.data).isSome

/-- Rust `s.splitn(2, pat).collect::<Vec<_>>()[0]`: the text strictly before
the first occurrence of `pat` (the whole string when `pat` does not occur). -/
def splitn2First (s pat : String) : String :=
  match splitFirst pat.data s.data with
  | none => s
  | some (before, _) => ⟨before⟩

/-- Modelled from the spec: `makePermalink` "concatenates the site's configured
base address with the normalized relative path, producing a single well-formed
absolute address (no double separators at the join point)". -/
def Config.make_permalink (c : Config) (path : String) : String :=
  let base := if endsWithSlash c.base_url then c.base_url.dropRight 1 else c.base_url
  if startsWithSlash path then base ++ path else base ++ "/" ++ path

/-- Rust `str::trim_left_matches('/')`: removes all leading `'/'` characters
("with all prefixes that match a pattern repeatedly removed"). -/
def trimLeftMatchesSlash (s : String) : String :=
  ⟨s.data.dropWhile (· = '/')⟩

/-- Modelled from the spec: slugification, from the external `slug` crate —
"lowercase, non-alphanumeric runs collapsed to single hyphens, leading/trailing
hyphens trimmed". -/
def slugChar (c : Char) : Char :=
  if c.isAlphanum then c.toLower else '-'

/-- Collapse each run of consecutive hyphens to a single hyphen. -/
def collapseHyphens : List Char → List Char
  | [] => []
  | [c] => [c]
  | c :: d :: rest =>
      if c = '-' && d = '-' then collapseHyphens (d :: rest)
      else c :: collapseHyphens (d :: rest)

/-- Drop leading and trailing hyphens. -/
def trimHyphens (l : List Char) : List Char :=
  ((l.dropWhile (· = '-')).reverse.dropWhile (· = '-')).reverse

/-- Modelled from the spec: the standard slug transform (external `slug` crate). -/
def slugify (s : String) : String :=
  ⟨trimHyphens (collapseHyphens (s.data.map slugChar))⟩

/-- Splits raw file text around the `+++` front-matter delimiters: `none` when
the opening delimiter is absent or no terminator is found; otherwise the raw
metadata block and the remaining body (one newline after the terminator
dropped, as the source's tests observe). -/
def splitBlock (content : String) : Option (String × String) :=
  let c := (strTrimLeft content).data
  if List.isPrefixOf "+++".data c then
    match splitFirst "+++".data (c.drop 3) with
    | none => none
    | some (block, after) =>
        some (⟨block⟩, ⟨if after.head? == some '\n' then after.drop 1 else after⟩)
  else none

/-- Modelled from the spec: the Front-Matter Splitter, external to this
repository — `split(path, content) -> (Metadata, body) | MalformedMetadataError`;
"fails with a MalformedMetadata error if no valid metadata block terminator is
found or the metadata block fails to deserialize into the expected shape".
The deserializer for the metadata block is itself external and unspecified, so
it is a parameter `deser`. -/
def split_page_content (deser : String → Option PageFrontMatter) (content : String) :
    Except PError (PageFrontMatter × String) :=
  match splitBlock content with
  | none => .error .MalformedMetadata
  | some (block, body) =>
      match deser block with
      | none => .error .MalformedMetadata
      | some meta => .ok (meta, body)

/-- The non-sibling fields of `Page` (from `page.rs`).  `previous`/`next` live
on the recursive wrapper `Page` below, mirroring `Option<Box<Page>>`. -/
structure PageData where
  file : FileInfo
  meta : PageFrontMatter
  raw_content : String
  assets : List String
  content : String
  slug : String
  path : String
  permalink : String
  summary : Option String
  toc : List Header
deriving DecidableEq, Repr

/-- The `Page` struct of `page.rs`: its data fields plus the
`previous`/`next` sibling links (`Option<Box<Page>>` in the source). -/
inductive Page where
  | mk : PageData → Option Page → Option Page → Page

def Page.data : Page → PageData
  | .mk d _ _ => d

def Page.previous : Page → Option Page
  | .mk _ p _ => p

def Page.next : Page → Option Page
  | .mk _ _ n => n

def Page.slug (p : Page) : String := p.data.slug

def Page.path (p : Page) : String := p.data.path

def Page.permalink (p : Page) : String := p.data.permalink

def Page.raw_content (p : Page) : String := p.data.raw_content

def Page.summary (p : Page) : Option String := p.data.summary

def Page.assets (p : Page) : List String := p.data.assets

def Page.content (p : Page) : String := p.data.content

def Page.toc (p : Page) : List Header := p.data.toc

/-- The slug fallback of `Page::parse` when no slug is declared: for `index`
files with a parent directory, the slugified parent-directory name; otherwise
the slugified file stem. -/
def fallbackSlug (file : FileInfo) : String :=
  if file.name = "index" then
    match file.parentName with
    | some parent => slugify parent
    | none => slugify file.name
  else slugify file.name

/-- The slug assignment of `Page::parse` (lines 85–99 of `page.rs`): a
declared slug is trimmed and used verbatim, otherwise the fallback applies. -/
def resolvedSlug (meta : PageFrontMatter) (file : FileInfo) : String :=
  match meta.slug with
  | some s => strTrim s
  | none => fallbackSlug file

/-- The path assignment of `Page::parse` before trailing-separator
normalization (lines 101–110 of `page.rs`): a declared path is trimmed and
stripped of leading `'/'`s; otherwise the file's components are joined with
the slug (the slug alone when there are no components). -/
def resolvedRawPath (meta : PageFrontMatter) (file : FileInfo) (slug : String) : String :=
  match meta.path with
  | some p => trimLeftMatchesSlash (strTrim p)
  | none =>
      if file.components.isEmpty then slug
      else String.intercalate "/" file.components ++ "/" ++ slug

/-- The trailing-separator normalization of `Page::parse` (lines 111–113 of
`page.rs`): append `'/'` unless the path already ends with one. -/
def normalizePath (p : String) : String :=
  if endsWithSlash p then p else p ++ "/"

/-- `Page::parse` from `page.rs`: split the front matter, resolve the slug,
resolve and normalize the path, and derive the permalink. -/
def Page.parse (deser : String → Option PageFrontMatter) (file : FileInfo)
    (content : String) (config : Config) : Except PError Page :=
  match split_page_content deser content with
  | .error e => .error e
  | .ok (meta, body) =>
      let slug := resolvedSlug meta file
      let path := normalizePath (resolvedRawPath meta file slug)
      .ok (Page.mk
        { file := file, meta := meta, raw_content := body, assets := [],
          content := "", slug := slug, path := path,
          permalink := config.make_permalink path, summary := none, toc := [] }
        none none)

def Page.withAssets : Page → List String → Page
  | .mk d pv nx, a => .mk { d with assets := a } pv nx

def Page.withContentToc : Page → String → List Header → Page
  | .mk d pv nx, c, t => .mk { d with content := c, toc := t } pv nx

def Page.withSummary : Page → Option String → Page
  | .mk d pv nx, s => .mk { d with summary := s } pv nx

/-- Whether a file among the siblings is a content/metadata file (spec: asset
discovery keeps "every sibling file that is not itself a content/metadata
file"); in this repository content files are the markdown sources. -/
def isContentFile (f : String) : Bool := List.isSuffixOf ".md".data f.data

/-- Modelled from the spec: `find_related_assets` from the external `utils`
crate — "every sibling file that is not itself a content/metadata file,
storing them in discovery order". -/
def find_related_assets (siblings : List String) : List String :=
  siblings.filter (fun f => !isContentFile f)

/-- `Page::from_file` from `page.rs`: read the file (the filesystem is
modelled: the read result and the parent directory's sibling files are passed
explicitly), parse it, then — only for `index` files — discover related
assets next to it. -/
def Page.from_file (deser : String → Option PageFrontMatter) (file : FileInfo)
    (fileText : Except PError String) (siblings : List String) (config : Config) :
    Except PError Page :=
  match fileText with
  | .error _ => .error .ReadFailure
  | .ok content =>
      match Page.parse deser file content config with
      | .error e => .error e
      | .ok page =>
          let page := page.withAssets []
          if file.name = "index" then
            .ok (page.withAssets (find_related_assets siblings))
          else
            .ok page

/-- The rendering context handed to the markdown renderer
(`rendering::Context::new` in the source; the `Tera` handle it also carries is
an opaque template-engine reference with no bearing on the rendered output's
specification, so it is omitted). -/
structure RContext where
  highlight_code : Bool
  highlight_theme : String
  current_permalink : String
  permalinks : List (String × String)
  insert_anchor : InsertAnchor
deriving DecidableEq, Repr

/-- The context `Page::render_markdown` builds for both the body and the
summary render. -/
def Page.renderContext (p : Page) (permalinks : List (String × String))
    (config : Config) (anchor_insert : InsertAnchor) : RContext :=
  { highlight_code := config.highlight_code,
    highlight_theme := config.highlight_theme,
    current_permalink := p.permalink,
    permalinks := permalinks,
    insert_anchor := anchor_insert }

/-- The excerpt marker of `page.rs`. -/
def moreMarker : String := "<!-- more -->"

/-- `Page::render_markdown` from `page.rs`: render the raw body with a context
built from the config, the page's own permalink, the permalink index and the
anchor policy; store the HTML and the heading outline; if the raw body contains
the excerpt marker, additionally render the text before the first marker with
the same context and store it as the summary.  The markdown renderer
(`rendering::markdown_to_html`) is an external collaborator, passed as `md`. -/
def Page.render_markdown
    (md : String → RContext → Except PError (String × List Header))
    (p : Page) (permalinks : List (String × String)) (config : Config)
    (anchor_insert : InsertAnchor) : Except PError Page :=
  match md p.raw_content (p.renderContext permalinks config anchor_insert) with
  | .error e => .error e
  | .ok (html, toc) =>
      if strContains p.raw_content moreMarker then
        match md (splitn2First p.raw_content moreMarker)
            (p.renderContext permalinks config anchor_insert) with
        | .error e => .error e
        | .ok (s, _) => .ok ((p.withContentToc html toc).withSummary (some s))
      else .ok (p.withContentToc html toc)

/-- Modelled from the spec: `get_reading_analytics` from the external `utils`
crate — "word count and reading time estimate, both derived fresh from the raw
body". -/
def get_reading_analytics (content : String) : Nat × Nat :=
  let wc := ((content.splitOn " ").filter (fun w => w ≠ "")).length
  (wc, wc / 200 + 1)

/-- The template-facing view model produced by `impl ser::Serialize for Page`:
the serialized field set, in the source's order.  `previous`/`next` are
serialized through the very same `Serialize` implementation, hence the
recursive occurrence. -/
inductive ViewModel where
  | mk (content : String) (title : Option String) (description : Option String)
       (date : Option String) (slug : String) (path : String) (permalink : String)
       (summary : Option String) (tags : Option (List String))
       (category : Option String) (extra : List (String × String))
       (word_count : Nat) (reading_time : Nat)
       (previous : Option ViewModel) (next : Option ViewModel)
       (toc : List Header) : ViewModel

def ViewModel.previous : ViewModel → Option ViewModel
  | .mk _ _ _ _ _ _ _ _ _ _ _ _ _ p _ _ => p

def ViewModel.next : ViewModel → Option ViewModel
  | .mk _ _ _ _ _ _ _ _ _ _ _ _ _ _ n _ => n

def ViewModel.slug : ViewModel → String
  | .mk _ _ _ _ s _ _ _ _ _ _ _ _ _ _ _ => s

def ViewModel.path : ViewModel → String
  | .mk _ _ _ _ _ p _ _ _ _ _ _ _ _ _ _ => p

def ViewModel.permalink : ViewModel → String
  | .mk _ _ _ _ _ _ pl _ _ _ _ _ _ _ _ _ => pl

/-- `impl ser::Serialize for Page` from `page.rs` as a pure projection: the
sixteen serialized fields; `previous`/`next` delegate to the same projection
(Rust serializes `Option<Box<Page>>` via `Page`'s own `Serialize` impl). -/
def Page.toViewModel : Page → ViewModel
  | .mk d pv nx =>
      let a := get_reading_analytics d.raw_content
      ViewModel.mk d.content d.meta.title d.meta.description d.meta.date
        d.slug d.path d.permalink d.summary d.meta.tags d.meta.category
        d.meta.extra a.1 a.2
        (match pv with
         | none => none
         | some q => some q.toViewModel)
        (match nx with
         | none => none
         | some q => some q.toViewModel)
        d.toc

/-- The declared-path rule exactly as claim C4 words it (for comparison with
the source's `resolvedRawPath`): trimmed, a SINGLE leading separator stripped,
then normalized to trailing-separator form. -/
def declaredPathSingleStrip (p : String) : String :=
  let t := strTrim p
  normalizePath (if startsWithSlash t then String.mk (t.data.drop 1) else t)

/-- The path shape claim C2 asserts of every resolved relative path: ends with
exactly one trailing separator (last character a `'/'` not preceded by another
`'/'`) and does not begin with one. -/
def claimedPathShape (s : String) : Bool :=
  endsWithSlash s && !endsWithSlash (String.mk s.data.dropLast) && !startsWithSlash s

/- Concrete inputs used by witnesses and counterexamples. -/

def exConfig : Config := { base_url := "http://hello.com/" }

def exFile : FileInfo := { name := "start", components := ["posts", "intro"], parentName := some "intro" }

def exFileRoot : FileInfo := { name := "start", components := [], parentName := none }

def exFileIndexRoot : FileInfo := { name := "index", components := [], parentName := none }

def exFileIndexAssets : FileInfo := { name := "index", components := ["posts"], parentName := some "with-assets" }

def exContent : String := "+++\nx\n+++\nHello world"

def exContentMore : String := "+++\nx\n+++\nHello world\n<!-- more -->\nrest"

def exContentNoEnd : String := "+++\nx"

def deserSlugHello : String → Option PageFrontMatter := fun _ => some { slug := some "hello-world" }

def deserSlugWeird : String → Option PageFrontMatter := fun _ => some { slug := some "/a//" }

def deserSlugBlank : String → Option PageFrontMatter := fun _ => some { slug := some "   " }

def deserPathMulti : String → Option PageFrontMatter := fun _ => some { path := some "//hello-world" }

def deserPathPlain : String → Option PageFrontMatter := fun _ => some { path := some "about" }

def deserEmptyMeta : String → Option PageFrontMatter := fun _ => some {}

def mdEcho : String → RContext → Except PError (String × List Header) := fun s _ => .ok (s, [])

/-- The page `Page::parse` produces from `exContent` under `deserSlugHello`. -/
def pageHello : Page :=
  Page.mk
    { file := exFile, meta := { slug := some "hello-world" }, raw_content := "Hello world",
      assets := [], content := "", slug := "hello-world", path := "posts/intro/hello-world/",
      permalink := "http://hello.com/posts/intro/hello-world/", summary := none, toc := [] }
    none none

/-- The page `Page::parse` produces from `exContentMore` under `deserEmptyMeta`. -/
def pageMore : Page :=
  Page.mk
    { file := exFileRoot, meta := {}, raw_content := "Hello world\n<!-- more -->\nrest",
      assets := [], content := "", slug := "start", path := "start/",
      permalink := "http://hello.com/start/", summary := none, toc := [] }
    none none

/-- `pageMore` after `render_markdown` with the `mdEcho` renderer. -/
def pageMoreRendered : Page :=
  Page.mk
    { file := exFileRoot, meta := {}, raw_content := "Hello world\n<!-- more -->\nrest",
      assets := [], content := "Hello world\n<!-- more -->\nrest", slug := "start",
      path := "start/", permalink := "http://hello.com/start/",
      summary := some "Hello world\n", toc := [] }
    none none

/-- The page `Page::parse` produces from `exContent` under `deserPathMulti`. -/
def pagePathMulti : Page :=
  Page.mk
    { file := exFile, meta := { path := some "//hello-world" }, raw_content := "Hello world",
      assets := [], content := "", slug := "start", path := "hello-world/",
      permalink := "http://hello.com/hello-world/", summary := none, toc := [] }
    none none

/-- The page `Page::from_file` produces for the index file of a directory with
three non-content sibling files. -/
def pageAssets : Page :=
  Page.mk
    { file := exFileIndexAssets, meta := {}, raw_content := "Hello world",
      assets := ["example.js", "graph.jpg", "fail.png"], content := "",
      slug := "with-assets", path := "posts/with-assets/",
      permalink := "http://hello.com/posts/with-assets/", summary := none, toc := [] }
    none none

/-- A bare page record used to build concrete sibling chains. -/
def plainData (s : String) : PageData :=
  { file := exFileRoot, meta := {}, raw_content := "", assets := [], content := "",
    slug := s, path := s ++ "/", permalink := "", summary := none, toc := [] }

def pgC : Page := Page.mk (plainData "c") none none

def pgB : Page := Page.mk (plainData "b") (some pgC) none

def pgA : Page := Page.mk (plainData "a") (some pgB) none

/- Helper lemmas about the embedding. -/

theorem endsWithSlash_append_slash (s : String) : endsWithSlash (s ++ "/") = true := by
  have h : (s ++ "/").data = s.data ++ ['/'] := String.data_append s "/"
  rw [endsWithSlash, h]
  simp

theorem normalizePath_ends (s : String) : endsWithSlash (normalizePath s) = true := by
  unfold normalizePath
  by_cases h : endsWithSlash s = true
  · rw [if_pos h]; exact h
  · rw [if_neg h]; exact endsWithSlash_append_slash s

theorem parse_error_of_split_error (deser : String → Option PageFrontMatter)
    (file : FileInfo) (content : String) (config : Config) (e : PError)
    (h : split_page_content deser content = .error e) :
    Page.parse deser file content config = .error e := by
  unfold Page.parse
  rw [h]

theorem parse_ok_of_split_ok (deser : String → Option PageFrontMatter)
    (file : FileInfo) (content : String) (config : Config)
    (meta : PageFrontMatter) (body : String)
    (h : split_page_content deser content = .ok (meta, body)) :
    Page.parse deser file content config = .ok (Page.mk
      { file := file, meta := meta, raw_content := body, assets := [], content := "",
        slug := resolvedSlug meta file,
        path := normalizePath (resolvedRawPath meta file (resolvedSlug meta file)),
        permalink := config.make_permalink
          (normalizePath (resolvedRawPath meta file (resolvedSlug meta file))),
        summary := none, toc := [] } none none) := by
  unfold Page.parse
  rw [h]

/- Claim theorems. -/

/-- C2, counterexample: the claim "the resulting relative path ends with
exactly one trailing '/' and does not begin with '/'" is false on the code: a
declared slug of "/a//" (used verbatim) yields the relative path "/a//", which
begins with '/' and ends with two trailing separators. -/
theorem C2_counterexample :
    (Page.parse deserSlugWeird exFileRoot exContent exConfig).map Page.path = .ok "/a//" ∧
    claimedPathShape "/a//" = false :=
  ⟨by decide, by decide⟩

/-- C2 (amended): for every successfully parsed unit the resulting relative
path ends with a trailing '/' — but possibly with more than one, and possibly
also beginning with '/', when the declared path or declared slug itself
carries separator characters. -/
theorem C2_amended_trailing_slash (deser : String → Option PageFrontMatter)
    (file : FileInfo) (content : String) (config : Config) (page : Page)
    (h : Page.parse deser file content config = .ok page) :
    endsWithSlash page.path = true := by
  cases hs : split_page_content deser content with
  | error e =>
      rw [parse_error_of_split_error deser file content config e hs] at h
      exact Except.noConfusion h
  | ok mb =>
      obtain ⟨meta, body⟩ := mb
      rw [parse_ok_of_split_ok deser file content config meta body hs] at h
      injection h with h
      subst h
      exact normalizePath_ends _

/-- Witness for `C2_amended_trailing_slash` at a concrete parsed page. -/
theorem C2_amended_witness : endsWithSlash pageHello.path = true :=
  C2_amended_trailing_slash deserSlugHello exFile exContent exConfig pageHello (by rfl)

/-- C4, counterexample: the claim "for a declared path with multiple leading
separators only one is stripped" is false on the code: `trim_left_matches('/')`
removes ALL leading separators, so the declared path "//hello-world" resolves
to "hello-world/", not to the claim's "/hello-world/". -/
theorem C4_counterexample :
    (Page.parse deserPathMulti exFile exContent exConfig).map Page.path = .ok "hello-world/" ∧
    declaredPathSingleStrip "//hello-world" = "/hello-world/" ∧
    ("hello-world/" : String) ≠ "/hello-world/" :=
  ⟨by decide, by decide, by decide⟩

/-- C4 (amended): for every unit whose metadata declares an explicit path, the
resolved relative path equals the declared value trimmed of surrounding
whitespace with ALL leading separators stripped, then normalized to
trailing-separator form. -/
theorem C4_amended_all_leading_stripped (deser : String → Option PageFrontMatter)
    (file : FileInfo) (content : String) (config : Config)
    (meta : PageFrontMatter) (body p : String) (page : Page)
    (hsplit : split_page_content deser content = .ok (meta, body))
    (hpath : meta.path = some p)
    (h : Page.parse deser file content config = .ok page) :
    page.path = normalizePath (trimLeftMatchesSlash (strTrim p)) := by
  rw [parse_ok_of_split_ok deser file content config meta body hsplit] at h
  injection h with h
  subst h
  show normalizePath (resolvedRawPath meta file (resolvedSlug meta file)) = _
  simp only [resolvedRawPath, hpath]

/-- Witness for `C4_amended_all_leading_stripped` at a concrete input. -/
theorem C4_amended_witness :
    pagePathMulti.path = normalizePath (trimLeftMatchesSlash (strTrim "//hello-world")) :=
  C4_amended_all_leading_stripped deserPathMulti exFile exContent exConfig
    { path := some "//hello-world" } "Hello world" "//hello-world" pagePathMulti
    (by decide) (by rfl) (by rfl)

/-- C6: for every unit whose metadata declares a slug, the resolved slug is
that declared value with surrounding whitespace trimmed, verbatim — for any
file (stem, components, parent) whatsoever. -/
theorem C6_declared_slug_verbatim (deser : String → Option PageFrontMatter)
    (file : FileInfo) (content : String) (config : Config)
    (meta : PageFrontMatter) (body s : String)
    (hsplit : split_page_content deser content = .ok (meta, body))
    (hslug : meta.slug = some s) :
    (Page.parse deser file content config).map Page.slug = .ok (strTrim s) := by
  rw [parse_ok_of_split_ok deser file content config meta body hsplit]
  show Except.ok (resolvedSlug meta file) = _
  simp only [resolvedSlug, hslug]

/-- Witness for `C6_declared_slug_verbatim` at a concrete input. -/
theorem C6_witness :
    (Page.parse deserSlugHello exFile exContent exConfig).map Page.slug
      = .ok (strTrim "hello-world") :=
  C6_declared_slug_verbatim deserSlugHello exFile exContent exConfig
    { slug := some "hello-world" } "Hello world" "hello-world" (by decide) (by rfl)

/-- C7, counterexample: the claim "the resolved slug is a non-empty string
(including when the slug was declared in front matter as whitespace-only
text)" is false on the code: a declared slug of "   " trims to the empty
string and parse still succeeds. -/
theorem C7_counterexample :
    (Page.parse deserSlugBlank exFileRoot exContent exConfig).map Page.slug = .ok "" ∧
    ("" : String).data = [] :=
  ⟨by decide, by decide⟩

/-- C7 (amended): the resolved slug is non-empty provided the declared slug
(when present) trims to a non-empty string, and (when absent) the slug
fallback for the file — the slugified parent-directory name for index files,
the slugified stem otherwise — is non-empty. -/
theorem C7_amended_nonempty_slug (deser : String → Option PageFrontMatter)
    (file : FileInfo) (content : String) (config : Config)
    (meta : PageFrontMatter) (body : String) (page : Page)
    (hsplit : split_page_content deser content = .ok (meta, body))
    (h : Page.parse deser file content config = .ok page)
    (hdecl : ∀ s, meta.slug = some s → strTrim s ≠ "")
    (hfall : meta.slug = none → fallbackSlug file ≠ "") :
    page.slug ≠ "" := by
  rw [parse_ok_of_split_ok deser file content config meta body hsplit] at h
  injection h with h
  subst h
  show resolvedSlug meta file ≠ ""
  unfold resolvedSlug
  cases hms : meta.slug with
  | none => exact hfall hms
  | some s => exact hdecl s hms

/-- Witness for `C7_amended_nonempty_slug` at a concrete parsed page. -/
theorem C7_amended_witness : pageHello.slug ≠ "" :=
  C7_amended_nonempty_slug deserSlugHello exFile exContent exConfig
    { slug := some "hello-world" } "Hello world" pageHello (by decide) (by rfl)
    (fun s hs => by injection hs with hs; subst hs; decide)
    (fun hn => by exact Option.noConfusion hn)

/-- C3: a file whose stem equals the index marker sitting at the content root
(no parent directory), with no declared slug, parses successfully and its
resolved slug is the slugified file stem. -/
theorem C3_index_at_root (deser : String → Option PageFrontMatter)
    (file : FileInfo) (content : String) (config : Config)
    (meta : PageFrontMatter) (body : String)
    (hsplit : split_page_content deser content = .ok (meta, body))
    (hslug : meta.slug = none)
    (hname : file.name = "index") (hroot : file.parentName = none) :
    (Page.parse deser file content config).map Page.slug = .ok (slugify file.name) := by
  rw [parse_ok_of_split_ok deser file content config meta body hsplit]
  show Except.ok (resolvedSlug meta file) = _
  simp only [resolvedSlug, hslug, fallbackSlug, hname, if_pos, hroot]

/-- Witness for `C3_index_at_root`: an index file at the content root. -/
theorem C3_witness :
    (Page.parse deserEmptyMeta exFileIndexRoot exContent exConfig).map Page.slug
      = .ok (slugify exFileIndexRoot.name) :=
  C3_index_at_root deserEmptyMeta exFileIndexRoot exContent exConfig
    {} "Hello world" (by decide) (by rfl) (by rfl) (by rfl)

/-- C9: when the front-matter block has no closing delimiter, or the metadata
block fails to deserialize into the expected shape, parse returns a
MalformedMetadata error and no unit. -/
theorem C9_malformed_metadata (deser : String → Option PageFrontMatter)
    (file : FileInfo) (content : String) (config : Config)
    (h : splitBlock content = none ∨
         ∃ block body, splitBlock content = some (block, body) ∧ deser block = none) :
    Page.parse deser file content config = .error .MalformedMetadata := by
  apply parse_error_of_split_error
  unfold split_page_content
  rcases h with h | ⟨block, body, h1, h2⟩
  · rw [h]
  · simp only [h1, h2]

/-- Witness for `C9_malformed_metadata`: a front-matter block missing its
closing delimiter. -/
theorem C9_witness :
    Page.parse deserEmptyMeta exFileRoot exContentNoEnd exConfig
      = .error .MalformedMetadata :=
  C9_malformed_metadata deserEmptyMeta exFileRoot exContentNoEnd exConfig
    (Or.inl (by decide))

/- Field-preservation lemmas for the update helpers and the projection. -/

theorem withAssets_assets (p : Page) (a : List String) : (p.withAssets a).assets = a := by
  cases p; rfl

theorem withContentToc_path (p : Page) (c : String) (t : List Header) :
    (p.withContentToc c t).path = p.path := by
  cases p; rfl

theorem withContentToc_permalink (p : Page) (c : String) (t : List Header) :
    (p.withContentToc c t).permalink = p.permalink := by
  cases p; rfl

theorem withContentToc_summary (p : Page) (c : String) (t : List Header) :
    (p.withContentToc c t).summary = p.summary := by
  cases p; rfl

theorem withSummary_path (p : Page) (s : Option String) :
    (p.withSummary s).path = p.path := by
  cases p; rfl

theorem withSummary_permalink (p : Page) (s : Option String) :
    (p.withSummary s).permalink = p.permalink := by
  cases p; rfl

theorem withSummary_summary (p : Page) (s : Option String) :
    (p.withSummary s).summary = s := by
  cases p; rfl

theorem toViewModel_path (p : Page) : (Page.toViewModel p).path = p.path := by
  cases p with
  | mk d pv nx =>
      cases pv <;> cases nx <;>
        simp only [Page.toViewModel, ViewModel.path, Page.path, Page.data]

theorem toViewModel_permalink (p : Page) : (Page.toViewModel p).permalink = p.permalink := by
  cases p with
  | mk d pv nx =>
      cases pv <;> cases nx <;>
        simp only [Page.toViewModel, ViewModel.permalink, Page.permalink, Page.data]

theorem parse_summary_none (deser : String → Option PageFrontMatter)
    (file : FileInfo) (content : String) (config : Config) (page : Page)
    (h : Page.parse deser file content config = .ok page) : page.summary = none := by
  cases hs : split_page_content deser content with
  | error e =>
      rw [parse_error_of_split_error deser file content config e hs] at h
      exact Except.noConfusion h
  | ok mb =>
      obtain ⟨meta, body⟩ := mb
      rw [parse_ok_of_split_ok deser file content config meta body hs] at h
      injection h with h
      subst h
      rfl

theorem render_preserves_path_permalink
    (md : String → RContext → Except PError (String × List Header))
    (p : Page) (pl : List (String × String)) (config : Config)
    (ai : InsertAnchor) (page' : Page)
    (h : p.render_markdown md pl config ai = .ok page') :
    page'.path = p.path ∧ page'.permalink = p.permalink := by
  unfold Page.render_markdown at h
  cases hmd : md p.raw_content (p.renderContext pl config ai) with
  | error e => rw [hmd] at h; exact Except.noConfusion h
  | ok ht =>
      obtain ⟨html, toc⟩ := ht
      simp only [hmd] at h
      by_cases hc : strContains p.raw_content moreMarker = true
      · rw [if_pos hc] at h
        cases hmd2 : md (splitn2First p.raw_content moreMarker)
            (p.renderContext pl config ai) with
        | error e => rw [hmd2] at h; exact Except.noConfusion h
        | ok st =>
            obtain ⟨s, t2⟩ := st
            simp only [hmd2] at h
            injection h with h
            subst h
            rw [withSummary_path, withSummary_permalink,
              withContentToc_path, withContentToc_permalink]
            exact ⟨rfl, rfl⟩
      · rw [if_neg hc] at h
        injection h with h
        subst h
        rw [withContentToc_path, withContentToc_permalink]
        exact ⟨rfl, rfl⟩

/-- C1: for every successfully parsed unit the permalink equals the site
configuration's `make_permalink` applied to the unit's normalized relative
path, and neither markdown rendering (for any renderer, permalink index,
configuration and anchor policy) nor the view projection changes either
field. -/
theorem C1_permalink_invariant (deser : String → Option PageFrontMatter)
    (file : FileInfo) (content : String) (config : Config) (page : Page)
    (h : Page.parse deser file content config = .ok page) :
    page.permalink = config.make_permalink page.path ∧
    (∀ md pl config2 ai page2,
        page.render_markdown md pl config2 ai = .ok page2 →
        page2.path = page.path ∧ page2.permalink = page.permalink) ∧
    (Page.toViewModel page).path = page.path ∧
    (Page.toViewModel page).permalink = page.permalink := by
  refine ⟨?_, ?_, toViewModel_path page, toViewModel_permalink page⟩
  · cases hs : split_page_content deser content with
    | error e =>
        rw [parse_error_of_split_error deser file content config e hs] at h
        exact Except.noConfusion h
    | ok mb =>
        obtain ⟨meta, body⟩ := mb
        rw [parse_ok_of_split_ok deser file content config meta body hs] at h
        injection h with h
        subst h
        rfl
  · intro md pl config2 ai page2 hr
    exact render_preserves_path_permalink md page pl config2 ai page2 hr

/-- Witness for `C1_permalink_invariant` at a concrete parsed page. -/
theorem C1_witness :
    pageHello.permalink = exConfig.make_permalink pageHello.path ∧
    (∀ md pl config2 ai page2,
        pageHello.render_markdown md pl config2 ai = .ok page2 →
        page2.path = pageHello.path ∧ page2.permalink = pageHello.permalink) ∧
    (Page.toViewModel pageHello).path = pageHello.path ∧
    (Page.toViewModel pageHello).permalink = pageHello.permalink :=
  C1_permalink_invariant deserSlugHello exFile exContent exConfig pageHello (by rfl)

/-- C5: after a successful `render_markdown` on a freshly parsed unit, if the
raw body contains the excerpt marker the summary is `some html` where `html`
is the renderer's output on the text strictly before the first marker
occurrence, rendered with the same context as the body; if the raw body does
not contain the marker the summary is `none`. -/
theorem C5_summary_extraction (deser : String → Option PageFrontMatter)
    (file : FileInfo) (content : String) (config : Config)
    (md : String → RContext → Except PError (String × List Header))
    (pl : List (String × String)) (config2 : Config) (ai : InsertAnchor)
    (p page' : Page)
    (hp : Page.parse deser file content config = .ok p)
    (h : p.render_markdown md pl config2 ai = .ok page') :
    (strContains p.raw_content moreMarker = true →
        ∃ html toc2,
          md (splitn2First p.raw_content moreMarker) (p.renderContext pl config2 ai)
            = .ok (html, toc2) ∧
          page'.summary = some html) ∧
    (strContains p.raw_content moreMarker = false → page'.summary = none) := by
  have hsum : p.summary = none := parse_summary_none deser file content config p hp
  unfold Page.render_markdown at h
  cases hmd : md p.raw_content (p.renderContext pl config2 ai) with
  | error e => rw [hmd] at h; exact Except.noConfusion h
  | ok ht =>
      obtain ⟨html, toc⟩ := ht
      simp only [hmd] at h
      by_cases hc : strContains p.raw_content moreMarker = true
      · rw [if_pos hc] at h
        cases hmd2 : md (splitn2First p.raw_content moreMarker)
            (p.renderContext pl config2 ai) with
        | error e => rw [hmd2] at h; exact Except.noConfusion h
        | ok st =>
            obtain ⟨s, t2⟩ := st
            simp only [hmd2] at h
            injection h with h
            subst h
            constructor
            · intro _
              exact ⟨s, t2, rfl, withSummary_summary _ _⟩
            · intro hfalse
              rw [hc] at hfalse
              exact Bool.noConfusion hfalse
      · rw [if_neg hc] at h
        injection h with h
        subst h
        constructor
        · intro htrue
          exact absurd htrue hc
        · intro _
          rw [withContentToc_summary]
          exact hsum

/-- Witness for `C5_summary_extraction`: a body containing the excerpt marker,
rendered with a concrete renderer. -/
theorem C5_witness :
    (strContains pageMore.raw_content moreMarker = true →
        ∃ html toc2,
          mdEcho (splitn2First pageMore.raw_content moreMarker)
              (pageMore.renderContext [] exConfig InsertAnchor.anchorNone)
            = .ok (html, toc2) ∧
          pageMoreRendered.summary = some html) ∧
    (strContains pageMore.raw_content moreMarker = false →
        pageMoreRendered.summary = none) :=
  C5_summary_extraction deserEmptyMeta exFileRoot exContentMore exConfig
    mdEcho [] exConfig InsertAnchor.anchorNone pageMore pageMoreRendered
    (by rfl) (by rfl)

/-- C8, counterexample: the claim "the view-model projection contains
projections of the siblings in which the siblings' own previous/next fields
are omitted or null" is false on the code: the projection serializes
`previous`/`next` through the very same projection, so a projected sibling
retains its own projected sibling — projecting `pgA` (whose previous is `pgB`,
whose previous is `pgC`) reaches `pgC`'s projection two levels deep. -/
theorem C8_counterexample :
    (Page.toViewModel pgA).previous = some (Page.toViewModel pgB) ∧
    ((Page.toViewModel pgA).previous.bind ViewModel.previous)
      = some (Page.toViewModel pgC) ∧
    ((Page.toViewModel pgA).previous.bind ViewModel.previous).isSome = true := by
  refine ⟨?_, ?_, ?_⟩ <;>
    simp only [pgA, pgB, pgC, Page.toViewModel, ViewModel.previous, Option.bind,
      Option.isSome]

/-- C8 (amended): the view-model projection maps `previous`/`next` through the
same full projection — a projected sibling keeps its own projected
previous/next, so projection recurses through the entire sibling chain rather
than stopping after one level. -/
theorem C8_amended_recursive_projection (p : Page) :
    (Page.toViewModel p).previous = p.previous.map Page.toViewModel ∧
    (Page.toViewModel p).next = p.next.map Page.toViewModel := by
  cases p with
  | mk d pv nx =>
      cases pv <;> cases nx <;>
        simp only [Page.toViewModel, ViewModel.previous, ViewModel.next,
          Page.previous, Page.next] <;>
        exact ⟨rfl, rfl⟩

/-- C10: `from_file` fills the related assets with exactly the non-content
sibling files, in discovery order, precisely when the file stem is the index
marker (otherwise the asset list is empty), and the asset list is independent
of the declared metadata (in particular of the declared slug). -/
theorem C10_asset_discovery (deser : String → Option PageFrontMatter)
    (file : FileInfo) (fileText : Except PError String) (siblings : List String)
    (config : Config) (page : Page)
    (h : Page.from_file deser file fileText siblings config = .ok page) :
    page.assets = (if file.name = "index" then find_related_assets siblings else []) ∧
    (∀ deser2 page2,
        Page.from_file deser2 file fileText siblings config = .ok page2 →
        page2.assets = page.assets) := by
  have core : ∀ (d : String → Option PageFrontMatter) (pg : Page),
      Page.from_file d file fileText siblings config = .ok pg →
      pg.assets = (if file.name = "index" then find_related_assets siblings else []) := by
    intro d pg hpg
    unfold Page.from_file at hpg
    cases fileText with
    | error e => exact Except.noConfusion hpg
    | ok content =>
        cases hp : Page.parse d file content config with
        | error e =>
            simp only [hp] at hpg
            exact Except.noConfusion hpg
        | ok p0 =>
            simp only [hp] at hpg
            by_cases hname : file.name = "index"
            · rw [if_pos hname] at hpg
              rw [if_pos hname]
              injection hpg with hpg
              subst hpg
              exact withAssets_assets _ _
            · rw [if_neg hname] at hpg
              rw [if_neg hname]
              injection hpg with hpg
              subst hpg
              exact withAssets_assets _ _
  refine ⟨core deser page h, ?_⟩
  intro deser2 page2 h2
  rw [core deser2 page2 h2, core deser page h]

/-- Witness for `C10_asset_discovery`: an index file next to three non-content
files and its own markdown source. -/
theorem C10_witness :
    pageAssets.assets
      = (if exFileIndexAssets.name = "index"
         then find_related_assets ["index.md", "example.js", "graph.jpg", "fail.png"]
         else []) ∧
    (∀ deser2 page2,
        Page.from_file deser2 exFileIndexAssets (.ok exContent)
            ["index.md", "example.js", "graph.jpg", "fail.png"] exConfig = .ok page2 →
        page2.assets = pageAssets.assets) :=
  C10_asset_discovery deserEmptyMeta exFileIndexAssets (.ok exContent)
    ["index.md", "example.js", "graph.jpg", "fail.png"] exConfig pageAssets (by rfl)
